import Mathlib

/-!
Verification development for the video-automator repository.

This file gives a shallow embedding, in Lean 4, of the task-orchestration and
workflow-execution core of the repository:

* the per-job `report` dictionary and the generation-blocking predicate
  (`_should_block_generation`, `src/heygen_automation.py`),
* the dispatch of terminal workflow steps `generate` / `final_submit` in
  `_execute_single_step` (`src/heygen_automation.py`),
* the workflow interpreter loop `_run_workflow` and the unknown-step fall-through,
* `validate_workflow` (`src/core/workflow.py`),
* the B-roll / Nano-Banano retry loops of `handle_broll_for_scene`
  (`src/heygen_automation.py`),
* `perform_step` (critical / non-critical step execution),
* the scene-progress aggregation in `_on_step` (`src/ui/api.py`),
* task records, `_set_task_status`, the per-task stop endpoint and
  `_stop_all_tasks` (`src/ui/api.py`),
* a small-step model of the bounded-concurrency scheduler (`_sem` / `_run_one`)
  and of the pause gates (`_global_pause`, `_task_pause`, `_await_gate`).

External browser actions are opaque in the source (Playwright calls); they are
modelled by oracle records that supply the classified outcome of each action,
exactly as the surrounding Python control flow consumes those outcomes.
-/

namespace VideoAutomator

/-- Status values of `StepStatus` in `src/core/types.py`. -/
inductive StepStatus where
  | success
  | failed
  | skipped
  | pending
deriving Repr, DecidableEq

/-- One entry of a `report` category list.  In the source these are plain dicts;
the optional fields here are exactly the keys the code ever stores
(`scene_idx`, `query`, `error`, `kind`, `prompt`, `attempt`, `reason`,
`screenshot`; compare `_compact_report_entries` in `src/ui/api.py`). -/
structure ReportEntry where
  scene_idx : Option Int := none
  query : Option String := none
  error : Option String := none
  kind : Option String := none
  prompt : Option String := none
  attempt : Option Nat := none
  reason : Option String := none
  screenshot : Option String := none
deriving Repr, DecidableEq

/-- The per-job `self.report` dict as initialised in `_run_workflow`
(`src/heygen_automation.py`).  The `nano_banano_errors` key is created on
demand by `setdefault`; it is a field starting empty here. -/
structure Report where
  validation_missing : List ReportEntry := []
  broll_skipped : List ReportEntry := []
  broll_no_results : List ReportEntry := []
  broll_errors : List ReportEntry := []
  manual_intervention : List ReportEntry := []
  nano_banano_errors : List ReportEntry := []
deriving Repr, DecidableEq

/-- `HeyGenAutomation._should_block_generation` (src/heygen_automation.py,
lines 500-530): block iff any of `validation_missing`, `broll_skipped`,
`broll_errors`, `broll_no_results` is non-empty, or any recorded task step has
status SKIPPED.  `nano_banano_errors` and `manual_intervention` are not
consulted. -/
def should_block_generation (rep : Report) (steps : List StepStatus) : Bool :=
  if !rep.validation_missing.isEmpty then true
  else if !rep.broll_skipped.isEmpty then true
  else if !rep.broll_errors.isEmpty then true
  else if !rep.broll_no_results.isEmpty then true
  else steps.any (fun s => s == StepStatus.skipped)

/-- Result of executing a `generate` or `final_submit` step: the boolean the
handler returns, whether the irreversible external action
(`click_generate_button` / `fill_and_submit_final_window`) was invoked, and
whether `task_status.global_status` was set to `"failed"`. -/
structure GenOutcome where
  ok : Bool
  actionInvoked : Bool
  statusFailed : Bool
deriving Repr, DecidableEq

/-- The `generate` branch of `_execute_single_step`
(src/heygen_automation.py, lines 2247-2262). -/
def executeGenerate (genEnabled : Bool) (rep : Report) (steps : List StepStatus) :
    GenOutcome :=
  if !genEnabled then ⟨true, false, false⟩
  else if should_block_generation rep steps then ⟨false, false, true⟩
  else ⟨true, true, false⟩

/-- The `final_submit` branch of `_execute_single_step`
(src/heygen_automation.py, lines 2264-2279). -/
def executeFinalSubmit (genEnabled : Bool) (rep : Report) (steps : List StepStatus) :
    GenOutcome :=
  if !genEnabled then ⟨true, false, false⟩
  else if should_block_generation rep steps then ⟨false, false, true⟩
  else ⟨true, true, false⟩

/-- Every step `type` string that has a handler in the dispatch chain of
`_execute_single_step` (src/heygen_automation.py, lines 2019-2279). -/
def knownStepTypes : List String :=
  ["navigate_to_template", "navigate", "wait_for", "wait_for_selector",
   "wait", "sleep", "click", "fill", "press",
   "select_episode_parts", "select_parts_by_episode",
   "fill_scene", "handle_broll", "delete_empty_scenes", "save",
   "reload", "reload_and_validate", "confirm", "generate", "final_submit"]

/-- A declared workflow step as consumed by `_run_workflow`: its `type`
string, its effective `enabled` flag, and the boolean outcome its handler
produces when the type is known (the handlers act on the external page, which
is opaque; `result` is that oracle). -/
structure WfStep where
  stepType : String
  enabled : Bool
  result : Bool
deriving Repr, DecidableEq

/-- `_execute_single_step` seen at the granularity of its dispatch: a known
type runs its handler and yields the handler's boolean; an unknown type is
logged (`print`) and falls through to `return True`
(src/heygen_automation.py, lines 2281-2283). -/
def executeStepModel (s : WfStep) : Bool :=
  if knownStepTypes.contains s.stepType then s.result else true

/-- The step loop of `_run_workflow` (src/heygen_automation.py, lines
2323-2332): disabled steps are skipped, a `False` result aborts the whole run
with `False`, otherwise iteration continues; an exhausted list yields `True`. -/
def runWorkflowSteps : List WfStep → Bool
  | [] => true
  | s :: rest =>
    if !s.enabled then runWorkflowSteps rest
    else if executeStepModel s then runWorkflowSteps rest
    else false

/-- Shape of a raw step definition as inspected by `validate_workflow`
(src/core/workflow.py): whether the element is a dict, whether its `type`
field is present and truthy, and whether `params` (when present) is a dict. -/
structure RawStepDef where
  isDict : Bool
  hasType : Bool
  paramsPresent : Bool
  paramsIsDict : Bool
deriving Repr, DecidableEq

/-- Error messages contributed by one step at index `i` in
`validate_workflow` (src/core/workflow.py, lines 284-295). -/
def stepDefErrors (i : Nat) (st : RawStepDef) : List String :=
  if !st.isDict then ["Step " ++ toString i ++ ": not a dictionary"]
  else
    (if !st.hasType then ["Step " ++ toString i ++ ": missing type field"] else []) ++
    (if st.paramsPresent && !st.paramsIsDict then
      ["Step " ++ toString i ++ ": params must be a dictionary"] else [])

/-- `validate_workflow` (src/core/workflow.py, lines 268-297): an empty step
list is reported as the single configuration error `"Workflow has no steps"`;
otherwise per-step shape errors are collected in order. -/
def validate_workflow (steps : List RawStepDef) : List String :=
  if steps.isEmpty then ["Workflow has no steps"]
  else (steps.enum.map (fun p => stepDefErrors p.1 p.2)).flatten

/-- Outcome of the `action_func` passed to `perform_step`: a returned boolean
or a raised exception. -/
inductive ActionRes where
  | val (b : Bool)
  | exn (msg : String)
deriving Repr, DecidableEq

/-- Net effect of `HeyGenAutomation.perform_step`
(src/heygen_automation.py, lines 404-455): the `StepStatus` recorded in
`task_status.steps`, the exception re-raised to the caller (if any), and the
value returned to the caller (`none` models Python's `None`). -/
structure PerformOutcome where
  recorded : StepStatus
  raised : Option String
  returned : Option Bool
deriving Repr, DecidableEq

/-- `perform_step`: a `False` result from a critical step records FAILED and
raises; from a non-critical step it records SKIPPED and returns `False`.  A
truthy result records SUCCESS.  An exception records FAILED and re-raises when
critical, else records SKIPPED and returns `None`. -/
def performStep (critical : Bool) : ActionRes → PerformOutcome
  | .val false =>
    if critical then ⟨.failed, some "step failed", none⟩
    else ⟨.skipped, none, some false⟩
  | .val true => ⟨.success, none, some true⟩
  | .exn m =>
    if critical then ⟨.failed, some m, none⟩
    else ⟨.skipped, none, none⟩

/-! ### B-roll / Nano-Banano retry loops (`handle_broll_for_scene`) -/

/-- ASCII whitespace as matched by Python's `\s` and `str.strip`. -/
def isPyWs (c : Char) : Bool :=
  c = ' ' || c = '\t' || c = '\n' || c = '\r' || c = '\x0b' || c = '\x0c'

/-- Drop leading Python whitespace (one `\s*` of the regex). -/
def dropWs : List Char → List Char
  | [] => []
  | c :: cs => if isPyWs c then dropWs cs else c :: cs

/-- Python `str.strip()`: drop leading and trailing whitespace. -/
def stripChars (cs : List Char) : List Char :=
  (dropWs (dropWs cs).reverse).reverse

/-- Python `str.lower()` on ASCII. -/
def lowerChars (cs : List Char) : List Char := cs.map Char.toLower

/-- Consume `pat` (already lowercase) case-insensitively from the front of a
character list; return the remainder on success. -/
def matchPrefixCI : List Char → List Char → Option (List Char)
  | [], cs => some cs
  | _ :: _, [] => none
  | p :: ps, c :: cs => if c.toLower = p then matchPrefixCI ps cs else none

/-- `parse_nano_banano_prompt` (src/utils/clipboard.py): match
`^\s*NANO_BANANO\s*:\s*(.+)$` case-insensitively (no DOTALL: `.` excludes
newline, `$` also matches just before one final newline), strip the captured
group, and return `None` for a non-match or an empty prompt. -/
def parse_nano_banano_prompt (q : String) : Option String :=
  match matchPrefixCI "nano_banano".toList (dropWs q.toList) with
  | none => none
  | some rest =>
    match dropWs rest with
    | ':' :: rest2 =>
      let body := dropWs rest2
      if body.isEmpty then none
      else
        let core := if body.getLast? = some '\n' then body.dropLast else body
        if core.isEmpty then none
        else if core.contains '\n' then none
        else
          let ptrim := stripChars core
          if ptrim.isEmpty then none else some (String.mk ptrim)
    | _ => none

/-- The guard at the top of `handle_broll_for_scene`
(src/heygen_automation.py, line 2499): an empty, all-whitespace, or
`"nan"` query is skipped. -/
def isEmptyOrNanQuery (q : String) : Bool :=
  q.toList.isEmpty || (stripChars q.toList).isEmpty
    || lowerChars (stripChars q.toList) == "nan".toList

/-- Which of the three code paths of `handle_broll_for_scene` a query takes. -/
inductive QueryKind where
  | skip
  | nano (prompt : String)
  | plain
deriving Repr, DecidableEq

/-- The path dispatch of `handle_broll_for_scene`, in source order: the
empty/nan guard first, then `parse_nano_banano_prompt`, else the plain
B-roll search path. -/
def classifyBrollQuery (q : String) : QueryKind :=
  if isEmptyOrNanQuery q then .skip
  else
    match parse_nano_banano_prompt q with
    | some p => .nano p
    | none => .plain

/-- Classified result of `_detect_broll_state_after_canvas_click`
(src/heygen_automation.py): the probe that re-reads external state. -/
inductive BrollState where
  | ok
  | needs_set_bg
  | empty_canvas
  | unknown
deriving Repr, DecidableEq

/-- Oracle for one iteration of the query-shortening search loop inside a
B-roll attempt: whether the search input was located, whether typing the
query succeeded (with the exception text otherwise), whether the panel showed
"No data / No results found", whether a visible result image was found, and
whether clicking it succeeded. -/
structure SearchIter where
  inputFound : Bool := true
  typeOk : Bool := true
  typeErr : String := ""
  noData : Bool := false
  resultsVisible : Bool := true
  clickOk : Bool := true

/-- Oracle for one attempt of the Nano-Banano loop: the outcome of
`handle_nano_banano`, the two probe readings (before and after a possible
"Set as BG" compensation click), whether that click landed, and the
diagnostic screenshot path captured on validation failure. -/
structure NanoAttempt where
  genOk : Bool := true
  genErr : String := ""
  state1 : BrollState := .ok
  setBgClick : Bool := true
  state2 : BrollState := .ok
  snap : Option String := none

/-- Oracle for one attempt of the plain B-roll loop. -/
structure BrollAttempt where
  panelOk : Bool := true
  tabOk : Bool := true
  search : Nat → SearchIter := fun _ => {}
  state1 : BrollState := .ok
  setBgClick : Bool := true
  state2 : BrollState := .ok
  snap : Option String := none

/-- Net outcome of the inner `while True` search loop of a B-roll attempt
(src/heygen_automation.py, lines 2682-2818): a hard failure (search input /
typing / click, each recording the then-current query), no results after
shortening the query word by word, or a clicked result. -/
inductive SearchOutcome where
  | fatalInput (curQuery : String)
  | fatalType (curQuery : String) (err : String)
  | fatalClick (curQuery : String)
  | notFound
  | found
deriving Repr, DecidableEq

/-- Helper for `str.split()`: accumulate the current word (reversed). -/
def wordsOfAux : List Char → List Char → List (List Char)
  | [], acc => if acc.isEmpty then [] else [acc.reverse]
  | c :: cs, acc =>
    if isPyWs c then
      if acc.isEmpty then wordsOfAux cs [] else acc.reverse :: wordsOfAux cs []
    else wordsOfAux cs (c :: acc)

/-- `str.split()` of Python: split on whitespace runs, no empty tokens. -/
def splitWords (q : String) : List String :=
  (wordsOfAux q.toList []).map String.mk

/-- `' '.join(words)`. -/
def joinWords (w : List String) : String := String.intercalate " " w

/-- The query-shortening search loop: on "no data" or no visible results the
query loses its last word (`' '.join(words[:-1])`) and the search repeats
while more than one word remains.  The loop is bounded by the word count of
the query; `fuel` is that bound (the loop recurses only while more than one
word remains, so fuel `w.length` never runs out before the loop stops, and
an exhausted fuel coincides with the loop's own `break` into "not found"). -/
def searchGo (env : Nat → SearchIter) : Nat → Nat → List String → SearchOutcome
  | _, 0, _ => .notFound
  | i, fuel + 1, w =>
    let it := env i
    if !it.inputFound then .fatalInput (joinWords w)
    else if !it.typeOk then .fatalType (joinWords w) it.typeErr
    else if it.noData then
      if 1 < w.length then searchGo env (i + 1) fuel w.dropLast else .notFound
    else if !it.resultsVisible then
      if 1 < w.length then searchGo env (i + 1) fuel w.dropLast else .notFound
    else if !it.clickOk then .fatalClick (joinWords w)
    else .found

/-- Post-insertion probe resolution of the Nano-Banano loop
(src/heygen_automation.py, lines 2557-2573): on `needs_set_bg` the code
clicks "Set as BG" and re-probes; the second component is
`last_validation_reason`. -/
def nanoResolve (na : NanoAttempt) : BrollState × String :=
  match na.state1 with
  | .needs_set_bg =>
    let st := if na.setBgClick then na.state2 else BrollState.needs_set_bg
    match st with
    | .needs_set_bg => (st, "set_as_bg_still_visible")
    | .empty_canvas => (st, "bg_color_visible_after_set_bg")
    | s => (s, "")
  | .empty_canvas => (.empty_canvas, "bg_color_visible_after_insert")
  | s => (s, "")

/-- The probe readings actually performed in one Nano-Banano attempt. -/
def nanoProbes (na : NanoAttempt) : List BrollState :=
  match na.state1 with
  | .needs_set_bg => .needs_set_bg :: (if na.setBgClick then [na.state2] else [])
  | s => [s]

/-- Post-insertion probe resolution of the plain B-roll loop
(src/heygen_automation.py, lines 2865-2886); unlike the Nano-Banano loop it
also labels the `unknown` probe as a validation failure. -/
def brollResolve (ba : BrollAttempt) : BrollState × String :=
  match ba.state1 with
  | .needs_set_bg =>
    let st := if ba.setBgClick then ba.state2 else BrollState.needs_set_bg
    match st with
    | .needs_set_bg => (st, "set_as_bg_still_visible")
    | .empty_canvas => (st, "bg_color_visible_after_set_bg")
    | .unknown => (st, "unknown_after_set_bg")
    | .ok => (st, "")
  | .empty_canvas => (.empty_canvas, "bg_color_visible_after_insert")
  | .unknown => (.unknown, "unknown_state")
  | .ok => (.ok, "")

/-- The probe readings actually performed in one plain B-roll attempt. -/
def brollProbes (ba : BrollAttempt) : List BrollState :=
  match ba.state1 with
  | .needs_set_bg => .needs_set_bg :: (if ba.setBgClick then [ba.state2] else [])
  | s => [s]

/-- Result of one `handle_broll_for_scene` call: the boolean returned to the
caller, the number of attempt-loop iterations executed, every probe reading
observed, the `finish_broll` events emitted (scene, ok), and the final
report. -/
structure BrollCallResult where
  ok : Bool
  acts : Nat
  probes : List BrollState
  finishEvents : List (Int × Bool)
  report : Report

/-- The Nano-Banano attempt loop, `for attempt in range(1, 4)`
(src/heygen_automation.py, lines 2534-2601).  Every exit returns `True`:
generation failure and validation exhaustion record a `nano_banano_errors`
entry (via `setdefault`) and still return `True`; a probe of `ok` or
`unknown` counts as success.  The fuel-exhausted case is the `return True`
after the loop (line 2601), unreachable when called with fuel 3. -/
def nanoGo (scene : Int) (prompt : String) (env : Nat → NanoAttempt) :
    Nat → Nat → List BrollState → Report → BrollCallResult
  | _, 0, probes, rep => ⟨true, 3, probes, [], rep⟩
  | a, fuel + 1, probes, rep =>
    let na := env a
    if !na.genOk then
      let e : ReportEntry :=
        { scene_idx := some scene, prompt := some prompt, error := some na.genErr }
      ⟨true, a, probes, [(scene, false)],
        { rep with nano_banano_errors := rep.nano_banano_errors ++ [e] }⟩
    else
      let st := (nanoResolve na).1
      let reason := (nanoResolve na).2
      let probes2 := probes ++ nanoProbes na
      if st = BrollState.ok || st = BrollState.unknown then
        ⟨true, a, probes2, [(scene, true)], rep⟩
      else if a < 3 then nanoGo scene prompt env (a + 1) fuel probes2 rep
      else
        let r := if reason = "" then "unknown" else reason
        let e : ReportEntry :=
          { scene_idx := some scene, prompt := some prompt,
            error := some ("валидация Nano Banana не прошла после 3 попыток: " ++ r),
            attempt := some a, reason := some r,
            screenshot := some (na.snap.getD "") }
        ⟨true, a, probes2, [(scene, false)],
          { rep with nano_banano_errors := rep.nano_banano_errors ++ [e] }⟩

/-- The plain B-roll attempt loop, `for attempt in range(1, 4)`
(src/heygen_automation.py, lines 2627-2923).  Hard failures (media panel,
video tab, search input, typing, result click) and "no results" record a
report entry and return `False` from inside the first attempt that hits
them; success requires the probe to resolve to `ok`; exhaustion after 3
attempts records a `broll_errors` entry with `kind = validation_failed`,
`attempt = 3`, the last validation reason and the screenshot path, and
returns `False`.  The fuel-exhausted case is unreachable when called with
fuel 3. -/
def brollGo (scene : Int) (query : String) (env : Nat → BrollAttempt) :
    Nat → Nat → List BrollState → Report → BrollCallResult
  | _, 0, probes, rep => ⟨false, 3, probes, [], rep⟩
  | a, fuel + 1, probes, rep =>
    let ba := env a
    if !ba.panelOk then
      let e : ReportEntry :=
        { scene_idx := some scene, query := some query,
          error := some "не удалось открыть панель Медиа" }
      ⟨false, a, probes, [(scene, false)],
        { rep with broll_errors := rep.broll_errors ++ [e] }⟩
    else if !ba.tabOk then
      let e : ReportEntry :=
        { scene_idx := some scene, query := some query,
          error := some "вкладка Видео/Video не найдена" }
      ⟨false, a, probes, [(scene, false)],
        { rep with broll_errors := rep.broll_errors ++ [e] }⟩
    else
      match searchGo ba.search 0 (splitWords query).length (splitWords query) with
      | .fatalInput cq =>
        let e : ReportEntry :=
          { scene_idx := some scene, query := some cq,
            error := some "поле поиска B-roll не найдено" }
        ⟨false, a, probes, [(scene, false)],
          { rep with broll_errors := rep.broll_errors ++ [e] }⟩
      | .fatalType cq err =>
        let e : ReportEntry :=
          { scene_idx := some scene, query := some cq,
            error := some ("не удалось ввести запрос B-roll: " ++ err) }
        ⟨false, a, probes, [(scene, false)],
          { rep with broll_errors := rep.broll_errors ++ [e] }⟩
      | .fatalClick cq =>
        let e : ReportEntry :=
          { scene_idx := some scene, query := some cq,
            error := some "не удалось кликнуть первый результат B-roll" }
        ⟨false, a, probes, [(scene, false)],
          { rep with broll_errors := rep.broll_errors ++ [e] }⟩
      | .notFound =>
        let e : ReportEntry := { scene_idx := some scene, query := some query }
        ⟨false, a, probes, [(scene, false)],
          { rep with broll_no_results := rep.broll_no_results ++ [e] }⟩
      | .found =>
        let st := (brollResolve ba).1
        let reason := (brollResolve ba).2
        let probes2 := probes ++ brollProbes ba
        if st = BrollState.ok then
          ⟨true, a, probes2, [(scene, true)], rep⟩
        else if a < 3 then brollGo scene query env (a + 1) fuel probes2 rep
        else
          let r := if reason = "" then "unknown" else reason
          let e : ReportEntry :=
            { scene_idx := some scene, query := some query,
              error := some ("валидация B-roll не прошла после 3 попыток: " ++ r),
              kind := some "validation_failed", attempt := some a,
              reason := some r, screenshot := some (ba.snap.getD "") }
          ⟨false, a, probes2, [(scene, false)],
            { rep with broll_errors := rep.broll_errors ++ [e] }⟩

/-- Oracles for one `handle_broll_for_scene` call. -/
structure BrollEnv where
  nano : Nat → NanoAttempt := fun _ => {}
  broll : Nat → BrollAttempt := fun _ => {}

/-- `handle_broll_for_scene` (src/heygen_automation.py, lines 2496-2923): the
empty/nan guard records a `broll_skipped` entry and returns `True`; a
`NANO_BANANO:` query runs the Nano-Banano loop; any other query runs the
plain B-roll loop. -/
def handle_broll_for_scene (scene : Int) (query : String) (env : BrollEnv)
    (rep : Report) : BrollCallResult :=
  match classifyBrollQuery query with
  | .skip =>
    ⟨true, 0, [], [],
      { rep with broll_skipped := rep.broll_skipped ++ [{ scene_idx := some scene }] }⟩
  | .nano p => nanoGo scene p env.nano 1 3 [] rep
  | .plain => brollGo scene query env.broll 1 3 [] rep

/-- A B-roll attempt whose action phase goes all the way to a clicked search
result: the media panel opens, the video tab is found, and the search loop
ends with an inserted result — so the attempt reaches the validation probe. -/
def brollAttemptInserts (q : String) (ba : BrollAttempt) : Bool :=
  ba.panelOk && ba.tabOk &&
    (match searchGo ba.search 0 (splitWords q).length (splitWords q) with
     | .found => true
     | _ => false)

/-! ### Scene-progress aggregation (`_on_step` in `src/ui/api.py`) -/

/-- The slice of module state of `src/ui/api.py` touched by a
`finish_scene` event: `_task_scene_done` (per-task seen sets),
`_tasks[k]["scene_done"]`, `_global_scene_done`, and
`_progress["done_scenes"]`. -/
structure SceneAgg where
  taskSeen : String → List Int
  sceneDone : String → Nat
  globalSeen : List String
  doneScenes : Nat

/-- The global dedupe key `f"{k}:{scene_idx}"`. -/
def globalSceneKey (k : String) (scene : Int) : String :=
  k ++ ":" ++ toString scene

/-- The `finish_scene` handling of `_on_step` (src/ui/api.py, lines 620-637
for the per-task counter and 651-663 for the global aggregate): on an `ok`
event, a scene index not yet in the task's seen set is added and
`scene_done` becomes the set's size; independently, the global key is added
to `_global_scene_done` and `done_scenes` incremented when unseen. -/
def onFinishScene (st : SceneAgg) (k : String) (scene : Int) (ok : Bool) :
    SceneAgg :=
  let st1 :=
    if ok then
      let seen := st.taskSeen k
      if scene ∈ seen then st
      else
        let seen2 := seen ++ [scene]
        { st with
          taskSeen := fun k2 => if k2 = k then seen2 else st.taskSeen k2,
          sceneDone := fun k2 => if k2 = k then seen2.length else st.sceneDone k2 }
    else st
  let gk := globalSceneKey k scene
  if gk ∈ st1.globalSeen then st1
  else if ok then
    { st1 with globalSeen := st1.globalSeen ++ [gk], doneScenes := st1.doneScenes + 1 }
  else st1

/-! ### Task records, per-task stop, and `_stop_all_tasks` (`src/ui/api.py`) -/

/-- The status-relevant slice of a `_tasks` record. -/
structure TaskRec where
  status : String
  finished_at : Option Nat
deriving Repr, DecidableEq

/-- `_set_task_status` (src/ui/api.py, lines 120-123): sets the status
unconditionally and stamps `finished_at` on the first arrival at a terminal
status. -/
def set_task_status (t : TaskRec) (status : String) (now : Nat) : TaskRec :=
  { status := status,
    finished_at :=
      if (status = "success" || status = "failed" || status = "stopped")
          && t.finished_at = none
      then some now else t.finished_at }

/-- The record update of the per-task stop endpoint `api_task_stop`
(src/ui/api.py, lines 1211-1228): after cancelling the handle and opening the
task gate, it calls `_set_task_status(t, "stopped")` with no guard on the
current status. -/
def api_task_stop_record (t : TaskRec) (now : Nat) : TaskRec :=
  set_task_status t "stopped" now

/-- The statuses `_stop_all_tasks` transitions to `stopped`. -/
def stopTriple : List String := ["running", "paused", "queued"]

/-- The per-record update inside `_stop_all_tasks` (src/ui/api.py, lines
860-864): only records currently `running`/`paused`/`queued` are stopped. -/
def stop_all_record (t : TaskRec) (now : Nat) : TaskRec :=
  if stopTriple.contains t.status then set_task_status t "stopped" now else t

/-- The orchestration state touched by `_stop_all_tasks`: the global pause
event, the per-task pause events, the task records, and which active handles
have had cancellation requested. -/
structure OrchState where
  globalGateOpen : Bool
  taskGates : List (String × Bool)
  tasks : List (String × TaskRec)
  cancelRequested : List String

/-- `_stop_all_tasks` (src/ui/api.py, lines 821-882), restricted to the
orchestration state: sets the global pause event, cancels every active
handle, sets every per-task pause event, and stops every
`running`/`paused`/`queued` record. -/
def stop_all_tasks (st : OrchState) (activeKeys : List String) (now : Nat) :
    OrchState :=
  { globalGateOpen := true,
    taskGates := st.taskGates.map (fun p => (p.1, true)),
    tasks := st.tasks.map (fun p => (p.1, stop_all_record p.2 now)),
    cancelRequested := st.cancelRequested ++ activeKeys }

/-! ### Bounded-concurrency scheduler (`_sem` / `_run_one` in `src/ui/api.py`)

`_run_one` wraps the whole job body in `async with _sem:`: the slot is
acquired before the `start_part` event sets the record `running`, and it is
released (leaving the `async with` block) only after the terminal status is
recorded (`finish_part` / the cancellation handler).  One job is modelled by
a phase; a system state is the list of phases of all submitted jobs. -/

/-- Phases of one `_run_one` invocation: before the semaphore, holding a slot
before `start_part`, status `running`, terminal status recorded (slot still
held), and slot released. -/
inductive JobPhase where
  | waiting
  | acquired
  | running
  | terminal
  | released
deriving Repr, DecidableEq

/-- Phases that hold one of the `C` semaphore slots. -/
def holdsSlot : JobPhase → Bool
  | .acquired | .running | .terminal => true
  | _ => false

/-- Phase with task status `running`. -/
def isRunningPhase : JobPhase → Bool
  | .running => true
  | _ => false

/-- Number of slots currently held. -/
def holders (s : List JobPhase) : Nat := s.countP holdsSlot

/-- Number of jobs currently in status `running`. -/
def runningCount (s : List JobPhase) : Nat := s.countP isRunningPhase

/-- Interleaving steps of the scheduler: a slot is acquired only below
capacity `C`; `running` is entered only from `acquired`; the slot is released
only from `terminal`.  Cancellation may hit a job while it waits for the
semaphore (it never ran) or after acquisition (it is marked stopped, a
terminal status, before the slot is released). -/
inductive SchedStep (C : Nat) : List JobPhase → List JobPhase → Prop
  | acquire (l r : List JobPhase) :
      holders (l ++ JobPhase.waiting :: r) < C →
      SchedStep C (l ++ JobPhase.waiting :: r) (l ++ JobPhase.acquired :: r)
  | start (l r : List JobPhase) :
      SchedStep C (l ++ JobPhase.acquired :: r) (l ++ JobPhase.running :: r)
  | finish (l r : List JobPhase) :
      SchedStep C (l ++ JobPhase.running :: r) (l ++ JobPhase.terminal :: r)
  | cancelEarly (l r : List JobPhase) :
      SchedStep C (l ++ JobPhase.acquired :: r) (l ++ JobPhase.terminal :: r)
  | cancelWaiting (l r : List JobPhase) :
      SchedStep C (l ++ JobPhase.waiting :: r) (l ++ JobPhase.released :: r)
  | release (l r : List JobPhase) :
      SchedStep C (l ++ JobPhase.terminal :: r) (l ++ JobPhase.released :: r)

/-- States reachable from a submission of `n` jobs, all initially waiting. -/
inductive SchedReachable (C : Nat) : List JobPhase → Prop
  | init (n : Nat) : SchedReachable C (List.replicate n JobPhase.waiting)
  | step {s s' : List JobPhase} :
      SchedReachable C s → SchedStep C s s' → SchedReachable C s'

/-! ### Pause gates (`_global_pause`, `_task_pause`, `_await_gate`)

`_await_gate` (src/heygen_automation.py, lines 392-402) awaits, at every
checkpoint, first the global pause event and THEN the per-task pause event
(`auto.pause_events = [_global_pause, pause_ev]`, src/ui/api.py line 728);
`_run_one` does the same before `start_part` (lines 690-692).  The two waits
are sequential `await`s with a suspension point between them: a job can pass
the global wait while the global event is set, suspend on its task event,
and later complete the checkpoint without re-checking the global event. -/

/-- Where a job stands inside one `_await_gate` call: not at a checkpoint,
suspended in `await _global_pause.wait()`, or past the global wait and
suspended in `await pause_ev.wait()`. -/
inductive WaitStage where
  | idle
  | atGlobal
  | atTask
deriving Repr, DecidableEq

/-- Gate-relevant state: the global event, the per-job task events, each
job's position inside its current `_await_gate` call, and how many
checkpoints each job has completed. -/
structure GateSt where
  globalOpen : Bool
  taskOpen : List Bool
  stage : List WaitStage
  crossed : List Nat
deriving Repr, DecidableEq

/-- Events: `api_pause` / `api_resume` flip the global event, the per-task
endpoints flip one task event; `beginWait j` is job `j` reaching a
checkpoint, `passGlobal j` is its `await _global_pause.wait()` returning,
and `passTask j` is its `await pause_ev.wait()` returning, which completes
the checkpoint. -/
inductive GateEvent where
  | pauseAll
  | resumeAll
  | pauseTask (j : Nat)
  | resumeTask (j : Nat)
  | beginWait (j : Nat)
  | passGlobal (j : Nat)
  | passTask (j : Nat)
deriving Repr, DecidableEq

/-- Labelled transition relation of the gate system.  `passGlobal` requires
only the global event and `passTask` only the job's own event, mirroring the
two sequential `await ev.wait()` calls of `_await_gate`; the checkpoint
counter increments when the second wait returns. -/
inductive GateStep : GateSt → GateEvent → GateSt → Prop
  | pauseAll (s : GateSt) :
      GateStep s .pauseAll { s with globalOpen := false }
  | resumeAll (s : GateSt) :
      GateStep s .resumeAll { s with globalOpen := true }
  | pauseTask (s : GateSt) (j : Nat) :
      GateStep s (.pauseTask j) { s with taskOpen := s.taskOpen.set j false }
  | resumeTask (s : GateSt) (j : Nat) :
      GateStep s (.resumeTask j) { s with taskOpen := s.taskOpen.set j true }
  | beginWait (s : GateSt) (j : Nat) :
      s.stage.getD j .idle = .idle →
      GateStep s (.beginWait j) { s with stage := s.stage.set j .atGlobal }
  | passGlobal (s : GateSt) (j : Nat) :
      s.stage.getD j .idle = .atGlobal →
      s.globalOpen = true →
      GateStep s (.passGlobal j) { s with stage := s.stage.set j .atTask }
  | passTask (s : GateSt) (j : Nat) :
      s.stage.getD j .idle = .atTask →
      s.taskOpen.getD j false = true →
      GateStep s (.passTask j)
        { s with stage := s.stage.set j .idle,
                 crossed := s.crossed.set j (s.crossed.getD j 0 + 1) }

/-- Multi-step reachability of the gate system. -/
inductive GateReach : GateSt → GateSt → Prop
  | refl (s : GateSt) : GateReach s s
  | tail {s t u : GateSt} (e : GateEvent) :
      GateReach s t → GateStep t e u → GateReach s u

/-! ## Claim theorems -/

/-- C2, counterexample.  The claim states that with the job-level blocking
predicate true the terminal steps return success without action.  At a report
with one `validation_missing` entry the predicate is true, yet both
`generate` and `final_submit` return `False` (failure), not success. -/
theorem c2_counterexample_blocked_generate_fails :
    should_block_generation { validation_missing := [{ scene_idx := some 1 }] } [] = true
    ∧ (executeGenerate true { validation_missing := [{ scene_idx := some 1 }] } []).ok = false
    ∧ (executeFinalSubmit true { validation_missing := [{ scene_idx := some 1 }] } []).ok = false :=
  ⟨rfl, rfl, rfl⟩

/-- C2, amended.  When generation is enabled and the blocking predicate
(any `validation_missing`, `broll_skipped`, `broll_errors`,
`broll_no_results` entry, or any skipped step) is true, the terminal steps
`generate` and `final_submit` return failure without invoking the external
action (`click_generate_button` / `fill_and_submit_final_window`), set the
task's global status to failed, and a `False` step result aborts the
remaining steps of the run. -/
theorem c2_blocked_generation_returns_failure (rep : Report) (steps : List StepStatus)
    (hb : should_block_generation rep steps = true) :
    executeGenerate true rep steps = ⟨false, false, true⟩
    ∧ executeFinalSubmit true rep steps = ⟨false, false, true⟩
    ∧ ∀ (s : WfStep) (rest : List WfStep), s.enabled = true → s.stepType = "generate" →
        s.result = false → runWorkflowSteps (s :: rest) = false := by
  refine ⟨?_, ?_, ?_⟩
  · simp [executeGenerate, hb]
  · simp [executeFinalSubmit, hb]
  · intro s rest he ht hr
    simp [runWorkflowSteps, he, executeStepModel, ht, hr, knownStepTypes]

/-- C2, witness for the amended theorem at a concrete blocked report. -/
theorem c2_blocked_generation_witness :
    executeGenerate true { validation_missing := [{ scene_idx := some 1 }] } [] = ⟨false, false, true⟩ :=
  (c2_blocked_generation_returns_failure
    { validation_missing := [{ scene_idx := some 1 }] } [] rfl).1

/-- C9.  A step whose `type` matches no handler of `_execute_single_step` is
logged and skipped: the workflow run over `s :: rest` equals the run over
`rest` alone, so the interpreter continues and the job does not fail because
of it; and `validate_workflow` reports an empty step list as the
configuration error "Workflow has no steps". -/
theorem c9_unknown_step_nonfatal_empty_invalid :
    (∀ (s : WfStep) (rest : List WfStep),
      knownStepTypes.contains s.stepType = false →
      runWorkflowSteps (s :: rest) = runWorkflowSteps rest)
    ∧ validate_workflow [] = ["Workflow has no steps"] := by
  constructor
  · intro s rest h
    have hex : executeStepModel s = true := by
      unfold executeStepModel
      exact if_neg (by simpa using h)
    by_cases he : s.enabled <;> simp [runWorkflowSteps, he, hex]
  · rfl

/-- C9, witness: a `frobnicate` step is passed over without aborting. -/
theorem c9_unknown_step_witness :
    runWorkflowSteps [⟨"frobnicate", true, false⟩] = runWorkflowSteps [] :=
  c9_unknown_step_nonfatal_empty_invalid.1 ⟨"frobnicate", true, false⟩ [] (by decide)

/-- C5.  Recording `finish_scene` twice for the same scene index increments
the per-task `scene_done` counter and the global `done_scenes` aggregate
exactly once: the first ok-event for an unseen index adds one to each, and
the second call leaves the whole state unchanged. -/
theorem c5_record_scene_done_idempotent (s : SceneAgg) (k : String) (i : Int)
    (hseen : i ∉ s.taskSeen k)
    (hg : globalSceneKey k i ∉ s.globalSeen)
    (hsync : s.sceneDone k = (s.taskSeen k).length) :
    (onFinishScene s k i true).sceneDone k = s.sceneDone k + 1
    ∧ (onFinishScene s k i true).doneScenes = s.doneScenes + 1
    ∧ onFinishScene (onFinishScene s k i true) k i true = onFinishScene s k i true := by
  refine ⟨?_, ?_, ?_⟩
  · simp [onFinishScene, hseen, hg, hsync]
  · simp [onFinishScene, hseen, hg]
  · simp [onFinishScene, hseen, hg]

/-- C5, witness at the empty aggregate state. -/
theorem c5_record_scene_done_witness :
    (onFinishScene ⟨fun _ => [], fun _ => 0, [], 0⟩ "ep::1" 2 true).doneScenes = 0 + 1 :=
  (c5_record_scene_done_idempotent ⟨fun _ => [], fun _ => 0, [], 0⟩ "ep::1" 2
    (by simp) (by simp) rfl).2.1

/-- C6, counterexample.  The claim states a transition to `stopped` is never
legal from a terminal state; yet the per-task stop endpoint
(`api_task_stop`) calls `_set_task_status(t, "stopped")` unconditionally, so
a record already in terminal status `success` ends up `stopped`. -/
theorem c6_counterexample_stop_from_success :
    (api_task_stop_record ⟨"success", some 5⟩ 9).status = "stopped"
    ∧ stopTriple.contains "success" = false :=
  ⟨rfl, by decide⟩

/-- C6, amended.  Only the bulk `_stop_all_tasks` path guards the transition
to `stopped`: it stops exactly the records in `running`/`paused`/`queued`
and leaves terminal records untouched, while the per-task stop endpoint sets
`stopped` from any state whatsoever. -/
theorem c6_stop_transitions_amended (t : TaskRec) (now : Nat) :
    (api_task_stop_record t now).status = "stopped"
    ∧ (stopTriple.contains t.status = true → (stop_all_record t now).status = "stopped")
    ∧ (stopTriple.contains t.status = false → stop_all_record t now = t) := by
  refine ⟨rfl, ?_, ?_⟩ <;> intro h
  · have hmem : t.status ∈ stopTriple := by simpa using h
    simp [stop_all_record, hmem, set_task_status]
  · have hmem : t.status ∉ stopTriple := by simpa using h
    simp [stop_all_record, hmem]

/-- C6, witness for the amended theorem at a running record. -/
theorem c6_stop_transitions_witness :
    (stop_all_record ⟨"running", none⟩ 7).status = "stopped" :=
  (c6_stop_transitions_amended ⟨"running", none⟩ 7).2.1 (by decide)

/-- C4.  After `_stop_all_tasks`, the global pause event is set (gate open),
every per-task pause event is set (no waiter remains blocked), and every
record that was `running`/`paused`/`queued` is present with status
`stopped`. -/
theorem c4_stop_all_stops_and_opens_gates (st : OrchState)
    (activeKeys : List String) (now : Nat) :
    (stop_all_tasks st activeKeys now).globalGateOpen = true
    ∧ (∀ g ∈ (stop_all_tasks st activeKeys now).taskGates, g.2 = true)
    ∧ (∀ p ∈ st.tasks, stopTriple.contains p.2.status = true →
        (p.1, set_task_status p.2 "stopped" now) ∈ (stop_all_tasks st activeKeys now).tasks
        ∧ (set_task_status p.2 "stopped" now).status = "stopped") := by
  refine ⟨rfl, ?_, ?_⟩
  · intro g hg
    simp only [stop_all_tasks, List.mem_map] at hg
    obtain ⟨a, _, rfl⟩ := hg
    rfl
  · intro p hp h
    have hmem : p.2.status ∈ stopTriple := by simpa using h
    refine ⟨?_, rfl⟩
    show (p.1, set_task_status p.2 "stopped" now)
        ∈ st.tasks.map (fun q => (q.1, stop_all_record q.2 now))
    refine List.mem_map.2 ⟨p, hp, ?_⟩
    simp [stop_all_record, hmem]

/-- C4, witness at a one-task state with both gates closed. -/
theorem c4_stop_all_witness :
    ("k", set_task_status ⟨"running", none⟩ "stopped" 3)
      ∈ (stop_all_tasks ⟨false, [("k", false)], [("k", ⟨"running", none⟩)], []⟩ [] 3).tasks :=
  ((c4_stop_all_stops_and_opens_gates
      ⟨false, [("k", false)], [("k", ⟨"running", none⟩)], []⟩ [] 3).2.2
    ("k", ⟨"running", none⟩) (by simp) (by decide)).1

/-- One scheduler step never pushes the number of held slots above `C`. -/
lemma schedStep_holders_le {C : Nat} {s s' : List JobPhase}
    (h : SchedStep C s s') (hle : holders s ≤ C) : holders s' ≤ C := by
  cases h <;>
    simp_all [holders, List.countP_append, List.countP_cons, holdsSlot] <;>
    omega

/-- Reachable scheduler states hold at most `C` slots. -/
lemma schedReachable_holders {C : Nat} {s : List JobPhase}
    (h : SchedReachable C s) : holders s ≤ C := by
  induction h with
  | init n =>
    have h0 : holders (List.replicate n JobPhase.waiting) = 0 := by
      simp [holders, List.countP_eq_zero, List.mem_replicate, holdsSlot]
    omega
  | step _ hstep ih => exact schedStep_holders_le hstep ih

/-- Jobs in status `running` are among the slot holders. -/
lemma runningCount_le_holders (s : List JobPhase) : runningCount s ≤ holders s := by
  induction s with
  | nil => simp [runningCount, holders]
  | cons x xs ih =>
    simp only [runningCount, holders, List.countP_cons] at *
    cases x <;> simp [isRunningPhase, holdsSlot] <;> omega

/-- C1.  In every state reachable by the scheduler from any submission of
jobs, at most `C` jobs are in status `running` simultaneously: the step
relation lets a job enter `running` only from `acquired` (a slot is taken
before `start_part`) and frees a slot only from `terminal` (after the
terminal status is recorded), so the count of running jobs is bounded by the
count of held slots, which never exceeds the semaphore capacity. -/
theorem c1_scheduler_concurrency_cap (C : Nat) (s : List JobPhase)
    (h : SchedReachable C s) : runningCount s ≤ C :=
  le_trans (runningCount_le_holders s) (schedReachable_holders h)

/-- C1, witness: three submitted jobs under capacity 2, one running and one
holding the second slot. -/
theorem c1_scheduler_concurrency_witness :
    runningCount [JobPhase.running, JobPhase.acquired, JobPhase.waiting] ≤ 2 :=
  c1_scheduler_concurrency_cap 2 _
    (SchedReachable.step
      (SchedReachable.step
        (SchedReachable.step (SchedReachable.init 3)
          (SchedStep.acquire [] [JobPhase.waiting, JobPhase.waiting] (by decide)))
        (SchedStep.start [] [JobPhase.waiting, JobPhase.waiting]))
      (SchedStep.acquire [JobPhase.running] [JobPhase.waiting] (by decide)))

/-- `List.getD` after a `set` at a different index is unchanged. -/
lemma getD_set_ne {α : Type} (l : List α) {i j : Nat} (a d : α) (h : i ≠ j) :
    (l.set i a).getD j d = l.getD j d := by
  simp [List.getD, List.getElem?_set_ne h]

/-- C8, counterexample.  The claim states that while the global Gate is
closed no job crosses any further checkpoint.  But `_await_gate` awaits the
global event and then the per-task event sequentially: from an all-open
one-job state, pause the task, let the job reach the checkpoint and pass the
global wait, then close the global gate (`api_pause`) and resume the task
(`api_task_resume`) — the job's pending task-wait returns and it completes
the checkpoint while the global Gate is still closed. -/
theorem c8_counterexample_checkpoint_crossed_while_closed :
    GateReach ⟨true, [true], [WaitStage.idle], [0]⟩
      ⟨false, [true], [WaitStage.atTask], [0]⟩
    ∧ GateStep ⟨false, [true], [WaitStage.atTask], [0]⟩ (GateEvent.passTask 0)
        ⟨false, [true], [WaitStage.idle], [1]⟩
    ∧ (GateSt.mk false [true] [WaitStage.atTask] [0]).globalOpen = false
    ∧ (GateSt.mk false [true] [WaitStage.idle] [1]).crossed.getD 0 0
        = (GateSt.mk false [true] [WaitStage.atTask] [0]).crossed.getD 0 0 + 1 :=
  ⟨GateReach.tail (GateEvent.resumeTask 0)
    (GateReach.tail GateEvent.pauseAll
      (GateReach.tail (GateEvent.passGlobal 0)
        (GateReach.tail (GateEvent.beginWait 0)
          (GateReach.tail (GateEvent.pauseTask 0)
            (GateReach.refl ⟨true, [true], [WaitStage.idle], [0]⟩)
            (GateStep.pauseTask ⟨true, [true], [WaitStage.idle], [0]⟩ 0))
          (GateStep.beginWait ⟨true, [false], [WaitStage.idle], [0]⟩ 0 rfl))
        (GateStep.passGlobal ⟨true, [false], [WaitStage.atGlobal], [0]⟩ 0 rfl rfl))
      (GateStep.pauseAll ⟨true, [false], [WaitStage.atTask], [0]⟩))
    (GateStep.resumeTask ⟨false, [false], [WaitStage.atTask], [0]⟩ 0),
   GateStep.passTask ⟨false, [true], [WaitStage.atTask], [0]⟩ 0 rfl rfl,
   rfl, rfl⟩

/-- C8, amended.  While the global Gate is closed, no job passes the
global-wait stage of a checkpoint, and reopening enables every waiter at
that stage to proceed; but the global and per-task events are awaited
sequentially, so completing a checkpoint requires only that the job already
passed the global wait and that its own task event is set — a job suspended
on its task event finishes that one checkpoint even while the global Gate
remains closed, once its task event is set. -/
theorem c8_gate_stage_amended :
    (∀ (s : GateSt) (e : GateEvent) (s' : GateSt) (j : Nat), GateStep s e s' →
        s.globalOpen = false → s.stage.getD j .idle = .atGlobal →
        s'.stage.getD j .idle = .atGlobal)
    ∧ (∀ (s : GateSt) (e : GateEvent) (s' : GateSt) (j : Nat), GateStep s e s' →
        s'.crossed.getD j 0 ≠ s.crossed.getD j 0 →
        e = GateEvent.passTask j ∧ s.stage.getD j .idle = .atTask
        ∧ s.taskOpen.getD j false = true)
    ∧ (∀ (s : GateSt) (j : Nat), s.globalOpen = true →
        s.stage.getD j .idle = .atGlobal →
        GateStep s (GateEvent.passGlobal j) { s with stage := s.stage.set j .atTask })
    ∧ (∀ (s : GateSt) (j : Nat), s.taskOpen.getD j false = true →
        s.stage.getD j .idle = .atTask →
        GateStep s (GateEvent.passTask j)
          { s with stage := s.stage.set j .idle,
                   crossed := s.crossed.set j (s.crossed.getD j 0 + 1) }) := by
  refine ⟨?_, ?_, ?_, ?_⟩
  · intro s e s' j hstep hclosed hstage
    cases hstep with
    | pauseAll => exact hstage
    | resumeAll => exact hstage
    | pauseTask j' => exact hstage
    | resumeTask j' => exact hstage
    | beginWait j' hidle =>
      by_cases hj : j' = j
      · subst hj; rw [hidle] at hstage; cases hstage
      · show (s.stage.set j' WaitStage.atGlobal).getD j .idle = .atGlobal
        rw [getD_set_ne _ _ _ hj]; exact hstage
    | passGlobal j' hst hopen => rw [hclosed] at hopen; cases hopen
    | passTask j' hst htask =>
      by_cases hj : j' = j
      · subst hj; rw [hst] at hstage; cases hstage
      · show (s.stage.set j' WaitStage.idle).getD j .idle = .atGlobal
        rw [getD_set_ne _ _ _ hj]; exact hstage
  · intro s e s' j hstep hne
    cases hstep with
    | pauseAll => exact absurd rfl hne
    | resumeAll => exact absurd rfl hne
    | pauseTask j' => exact absurd rfl hne
    | resumeTask j' => exact absurd rfl hne
    | beginWait j' hidle => exact absurd rfl hne
    | passGlobal j' hst hopen => exact absurd rfl hne
    | passTask j' hst htask =>
      by_cases hj : j' = j
      · subst hj; exact ⟨rfl, hst, htask⟩
      · exact absurd (getD_set_ne _ _ _ hj) hne
  · intro s j h1 h2
    exact GateStep.passGlobal s j h2 h1
  · intro s j h1 h2
    exact GateStep.passTask s j h2 h1

/-- C8, witness for the amended theorem: the global-wait transition is
enabled in a concrete open state. -/
theorem c8_gate_stage_witness :
    GateStep ⟨true, [false], [WaitStage.atGlobal], [0]⟩ (GateEvent.passGlobal 0)
      ⟨true, [false], [WaitStage.atTask], [0]⟩ :=
  c8_gate_stage_amended.2.2.1 ⟨true, [false], [WaitStage.atGlobal], [0]⟩ 0 rfl rfl

/-- Every exit of the Nano-Banano loop returns `True` to the caller. -/
lemma nanoGo_ok (scene : Int) (prompt : String) (env : Nat → NanoAttempt) :
    ∀ (fuel a : Nat) (probes : List BrollState) (rep : Report),
    (nanoGo scene prompt env a fuel probes rep).ok = true := by
  intro fuel
  induction fuel with
  | zero => intro a probes rep; rfl
  | succ n ih =>
    intro a probes rep
    simp only [nanoGo]
    split_ifs <;> first | rfl | exact ih _ _ _

/-- The Nano-Banano loop touches no report category other than
`nano_banano_errors`. -/
lemma nanoGo_report_preserved (scene : Int) (prompt : String)
    (env : Nat → NanoAttempt) :
    ∀ (fuel a : Nat) (probes : List BrollState) (rep : Report),
    (nanoGo scene prompt env a fuel probes rep).report.validation_missing = rep.validation_missing
    ∧ (nanoGo scene prompt env a fuel probes rep).report.broll_skipped = rep.broll_skipped
    ∧ (nanoGo scene prompt env a fuel probes rep).report.broll_no_results = rep.broll_no_results
    ∧ (nanoGo scene prompt env a fuel probes rep).report.broll_errors = rep.broll_errors
    ∧ (nanoGo scene prompt env a fuel probes rep).report.manual_intervention = rep.manual_intervention := by
  intro fuel
  induction fuel with
  | zero => intro a probes rep; exact ⟨rfl, rfl, rfl, rfl, rfl⟩
  | succ n ih =>
    intro a probes rep
    simp only [nanoGo]
    split_ifs <;> first | exact ⟨rfl, rfl, rfl, rfl, rfl⟩ | exact ih _ _ _

/-- The Nano-Banano loop performs at most 3 attempts. -/
lemma nanoGo_acts_le (scene : Int) (prompt : String) (env : Nat → NanoAttempt) :
    ∀ (fuel a : Nat) (probes : List BrollState) (rep : Report), a ≤ 3 →
    (nanoGo scene prompt env a fuel probes rep).acts ≤ 3 := by
  intro fuel
  induction fuel with
  | zero => intro a probes rep _; exact le_refl 3
  | succ n ih =>
    intro a probes rep ha
    simp only [nanoGo]
    split_ifs <;> first | simpa using ha | exact ih _ _ _ (by omega)

/-- The plain B-roll loop performs at most 3 attempts. -/
lemma brollGo_acts_le (scene : Int) (q : String) (env : Nat → BrollAttempt) :
    ∀ (fuel a : Nat) (probes : List BrollState) (rep : Report), a ≤ 3 →
    (brollGo scene q env a fuel probes rep).acts ≤ 3 := by
  intro fuel
  induction fuel with
  | zero => intro a probes rep _; exact le_refl 3
  | succ n ih =>
    intro a probes rep ha
    cases hs : searchGo (env a).search 0 (splitWords q).length (splitWords q) <;>
      simp only [brollGo, hs] <;>
      split_ifs <;>
      first | simpa using ha | exact ih _ _ _ (by omega)

/-- A probe resolving to `ok` in a B-roll attempt means some probe reading in
that attempt was `ok`. -/
lemma brollResolve_ok_mem (ba : BrollAttempt) :
    (brollResolve ba).1 = BrollState.ok → BrollState.ok ∈ brollProbes ba := by
  unfold brollResolve brollProbes
  cases h1 : ba.state1 <;> simp
  cases hc : ba.setBgClick <;> cases h2 : ba.state2 <;> simp

/-- The plain B-roll loop reports success only when a probe read `ok`. -/
lemma brollGo_ok_mem (scene : Int) (q : String) (env : Nat → BrollAttempt) :
    ∀ (fuel a : Nat) (probes : List BrollState) (rep : Report),
    (brollGo scene q env a fuel probes rep).ok = true →
    BrollState.ok ∈ (brollGo scene q env a fuel probes rep).probes := by
  intro fuel
  induction fuel with
  | zero => intro a probes rep h; simp [brollGo] at h
  | succ n ih =>
    intro a probes rep
    cases hs : searchGo (env a).search 0 (splitWords q).length (splitWords q) <;>
      simp only [brollGo, hs] <;>
      split_ifs <;>
      first
        | exact ih _ _ _
        | (intro _;
           exact List.mem_append.mpr (Or.inr (brollResolve_ok_mem _ (by assumption))))
        | (intro h; simp at h)

/-- Exhaustion of the plain B-roll loop: when every attempt reaches the
validation probe and no probe resolves to `ok`, the loop runs all 3 attempts,
appends exactly one structured `broll_errors` entry (kind
`validation_failed`, attempt 3, a reason, a screenshot artifact), leaves the
other categories untouched, and returns `False`. -/
lemma brollGo_exhaust (scene : Int) (q : String) (env : Nat → BrollAttempt)
    (rep : Report)
    (hall : ∀ a, 1 ≤ a → a ≤ 3 →
      brollAttemptInserts q (env a) = true
      ∧ (brollResolve (env a)).1 ≠ BrollState.ok) :
    ∀ (fuel a : Nat) (probes : List BrollState), fuel + a = 4 → 1 ≤ a → a ≤ 3 →
    (brollGo scene q env a fuel probes rep).ok = false
    ∧ (brollGo scene q env a fuel probes rep).acts = 3
    ∧ (∃ e, (brollGo scene q env a fuel probes rep).report.broll_errors
          = rep.broll_errors ++ [e]
        ∧ e.kind = some "validation_failed" ∧ e.attempt = some 3
        ∧ e.reason.isSome = true ∧ e.screenshot.isSome = true
        ∧ e.scene_idx = some scene)
    ∧ (brollGo scene q env a fuel probes rep).report.broll_no_results = rep.broll_no_results
    ∧ (brollGo scene q env a fuel probes rep).report.broll_skipped = rep.broll_skipped
    ∧ (brollGo scene q env a fuel probes rep).report.validation_missing = rep.validation_missing
    ∧ (brollGo scene q env a fuel probes rep).report.nano_banano_errors = rep.nano_banano_errors := by
  intro fuel
  induction fuel with
  | zero => intro a probes hfa h1a h3a; omega
  | succ n ih =>
    intro a probes hfa h1a h3a
    obtain ⟨hin, hnok⟩ := hall a h1a h3a
    simp only [brollAttemptInserts, Bool.and_eq_true] at hin
    obtain ⟨⟨hp, ht⟩, hmatch⟩ := hin
    have hf : searchGo (env a).search 0 (splitWords q).length (splitWords q) = SearchOutcome.found := by
      revert hmatch
      cases searchGo (env a).search 0 (splitWords q).length (splitWords q) <;> simp
    by_cases hlt : a < 3
    · have hstep :
          brollGo scene q env a (n + 1) probes rep
            = brollGo scene q env (a + 1) n (probes ++ brollProbes (env a)) rep := by
        simp [brollGo, hf, hp, ht, hnok, hlt]
      rw [hstep]
      exact ih (a + 1) (probes ++ brollProbes (env a)) (by omega) (by omega) (by omega)
    · have ha3 : a = 3 := by omega
      subst ha3
      refine ⟨?_, ?_,
        ⟨{ scene_idx := some scene, query := some q,
           error := some ("валидация B-roll не прошла после 3 попыток: "
             ++ (if (brollResolve (env 3)).2 = "" then "unknown"
                 else (brollResolve (env 3)).2)),
           kind := some "validation_failed", attempt := some 3,
           reason := some (if (brollResolve (env 3)).2 = "" then "unknown"
             else (brollResolve (env 3)).2),
           screenshot := some ((env 3).snap.getD "") },
          ?_, rfl, rfl, rfl, rfl, rfl⟩, ?_, ?_, ?_, ?_⟩ <;>
        simp [brollGo, hf, hp, ht, hnok, hlt]

/-- Exhaustion of the Nano-Banano loop: when generation succeeds every time
but no probe resolves to `ok` or `unknown`, the loop runs all 3 attempts,
appends exactly one `nano_banano_errors` entry that carries attempt 3, a
reason and a screenshot but NO `kind` field, and still returns `True`. -/
lemma nanoGo_exhaust (scene : Int) (prompt : String) (env : Nat → NanoAttempt)
    (rep : Report)
    (hall : ∀ a, 1 ≤ a → a ≤ 3 →
      (env a).genOk = true
      ∧ (nanoResolve (env a)).1 ≠ BrollState.ok
      ∧ (nanoResolve (env a)).1 ≠ BrollState.unknown) :
    ∀ (fuel a : Nat) (probes : List BrollState), fuel + a = 4 → 1 ≤ a → a ≤ 3 →
    (nanoGo scene prompt env a fuel probes rep).ok = true
    ∧ (nanoGo scene prompt env a fuel probes rep).acts = 3
    ∧ (∃ e, (nanoGo scene prompt env a fuel probes rep).report.nano_banano_errors
          = rep.nano_banano_errors ++ [e]
        ∧ e.kind = none ∧ e.attempt = some 3
        ∧ e.reason.isSome = true ∧ e.screenshot.isSome = true
        ∧ e.prompt = some prompt ∧ e.scene_idx = some scene) := by
  intro fuel
  induction fuel with
  | zero => intro a probes hfa h1a h3a; omega
  | succ n ih =>
    intro a probes hfa h1a h3a
    obtain ⟨hg, hnok, hnun⟩ := hall a h1a h3a
    by_cases hlt : a < 3
    · have hstep :
          nanoGo scene prompt env a (n + 1) probes rep
            = nanoGo scene prompt env (a + 1) n (probes ++ nanoProbes (env a)) rep := by
        simp [nanoGo, hg, hnok, hnun, hlt]
      rw [hstep]
      exact ih (a + 1) (probes ++ nanoProbes (env a)) (by omega) (by omega) (by omega)
    · have ha3 : a = 3 := by omega
      subst ha3
      refine ⟨?_, ?_,
        ⟨{ scene_idx := some scene, prompt := some prompt,
           error := some ("валидация Nano Banana не прошла после 3 попыток: "
             ++ (if (nanoResolve (env 3)).2 = "" then "unknown"
                 else (nanoResolve (env 3)).2)),
           attempt := some 3,
           reason := some (if (nanoResolve (env 3)).2 = "" then "unknown"
             else (nanoResolve (env 3)).2),
           screenshot := some ((env 3).snap.getD "") },
          ?_, rfl, rfl, rfl, rfl, rfl, rfl⟩⟩ <;>
        simp [nanoGo, hg, hnok, hnun, hlt]

/-- C3, counterexample.  The claim states no retry site ever returns success
without a prior probe classifying the outcome as `ok`.  At the
generated-image (Nano-Banano) site, a probe classifying the state as
`unknown` on the first attempt makes the call return success while no probe
ever read `ok`. -/
theorem c3_counterexample_nano_unknown_success :
    classifyBrollQuery "NANO_BANANO: x" ≠ QueryKind.skip
    ∧ (handle_broll_for_scene 2 "NANO_BANANO: x"
        { nano := fun _ => { state1 := BrollState.unknown } } {}).ok = true
    ∧ BrollState.ok ∉ (handle_broll_for_scene 2 "NANO_BANANO: x"
        { nano := fun _ => { state1 := BrollState.unknown } } {}).probes :=
  ⟨by decide, rfl, by decide⟩

/-- C3, amended.  Both retry sites run their `act` at most 3 times; the plain
B-roll site never returns success to the caller unless some probe classified
the outcome as `ok`; the generated-image (Nano-Banano) site, however, always
returns success to the caller — also on an `unknown` probe, on generation
failure, and on validation exhaustion (recording a report entry instead). -/
theorem c3_retry_attempt_bound_amended (scene : Int) (q : String)
    (env : BrollEnv) (rep : Report) :
    (handle_broll_for_scene scene q env rep).acts ≤ 3
    ∧ (classifyBrollQuery q = QueryKind.plain →
        (handle_broll_for_scene scene q env rep).ok = true →
        BrollState.ok ∈ (handle_broll_for_scene scene q env rep).probes)
    ∧ (∀ p, classifyBrollQuery q = QueryKind.nano p →
        (handle_broll_for_scene scene q env rep).ok = true) := by
  refine ⟨?_, ?_, ?_⟩
  · cases hc : classifyBrollQuery q
    · simp [handle_broll_for_scene, hc]
    · simp only [handle_broll_for_scene, hc]
      exact nanoGo_acts_le scene _ env.nano 3 1 [] rep (by omega)
    · simp only [handle_broll_for_scene, hc]
      exact brollGo_acts_le scene q env.broll 3 1 [] rep (by omega)
  · intro hc hok
    simp only [handle_broll_for_scene, hc] at hok ⊢
    exact brollGo_ok_mem scene q env.broll 3 1 [] rep hok
  · intro p hc
    simp only [handle_broll_for_scene, hc]
    exact nanoGo_ok scene p env.nano 3 1 [] rep

/-- C3, witness for the amended theorem: a plain query that succeeds has an
`ok` probe on record. -/
theorem c3_retry_attempt_bound_witness :
    BrollState.ok ∈ (handle_broll_for_scene 1 "city" {} {}).probes :=
  (c3_retry_attempt_bound_amended 1 "city" {} {}).2.1 (by decide) (by decide)

/-- C7, counterexample.  The claim states exhaustion always yields one entry
carrying a `kind` and a not-ok return.  At the generated-image site,
exhausting 3 attempts with the probe reading `empty_canvas` every time
appends one entry WITHOUT a `kind` field and the call returns success
(`True`). -/
theorem c7_counterexample_nano_exhaustion :
    (handle_broll_for_scene 2 "NANO_BANANO: x"
        { nano := fun _ => { state1 := BrollState.empty_canvas, snap := some "shot.png" } }
        {}).acts = 3
    ∧ (handle_broll_for_scene 2 "NANO_BANANO: x"
        { nano := fun _ => { state1 := BrollState.empty_canvas, snap := some "shot.png" } }
        {}).ok = true
    ∧ (handle_broll_for_scene 2 "NANO_BANANO: x"
        { nano := fun _ => { state1 := BrollState.empty_canvas, snap := some "shot.png" } }
        {}).report.nano_banano_errors.map ReportEntry.kind = [none]
    ∧ (handle_broll_for_scene 2 "NANO_BANANO: x"
        { nano := fun _ => { state1 := BrollState.empty_canvas, snap := some "shot.png" } }
        {}).report.nano_banano_errors.map ReportEntry.attempt = [some 3]
    ∧ BrollState.ok ∉ (handle_broll_for_scene 2 "NANO_BANANO: x"
        { nano := fun _ => { state1 := BrollState.empty_canvas, snap := some "shot.png" } }
        {}).probes :=
  ⟨by decide, by decide, by decide, by decide, by decide⟩

/-- C7, amended.  At the plain B-roll site, exhausting the 3 attempts without
a confirmed-ok probe appends exactly one `broll_errors` entry carrying
`kind = validation_failed`, `attempt = 3`, a reason and a screenshot
artifact, leaves the other categories untouched, and returns not-ok — which
the non-critical host invocation (`perform_step(..., critical=False)`) turns
into a skipped step without failing the job.  At the generated-image site,
the exhaustion entry carries `attempt = 3`, a reason and a screenshot but no
`kind`, and the call returns success. -/
theorem c7_exhaustion_reporting_amended :
    (∀ (scene : Int) (q : String) (env : BrollEnv) (rep : Report),
      classifyBrollQuery q = QueryKind.plain →
      (∀ a, 1 ≤ a → a ≤ 3 →
        brollAttemptInserts q (env.broll a) = true
        ∧ (brollResolve (env.broll a)).1 ≠ BrollState.ok) →
      (handle_broll_for_scene scene q env rep).ok = false
      ∧ (handle_broll_for_scene scene q env rep).acts = 3
      ∧ (∃ e, (handle_broll_for_scene scene q env rep).report.broll_errors
            = rep.broll_errors ++ [e]
          ∧ e.kind = some "validation_failed" ∧ e.attempt = some 3
          ∧ e.reason.isSome = true ∧ e.screenshot.isSome = true)
      ∧ (handle_broll_for_scene scene q env rep).report.broll_no_results
          = rep.broll_no_results
      ∧ (handle_broll_for_scene scene q env rep).report.validation_missing
          = rep.validation_missing
      ∧ performStep false (ActionRes.val (handle_broll_for_scene scene q env rep).ok)
          = ⟨StepStatus.skipped, none, some false⟩)
    ∧ (∀ (scene : Int) (q p : String) (env : BrollEnv) (rep : Report),
      classifyBrollQuery q = QueryKind.nano p →
      (∀ a, 1 ≤ a → a ≤ 3 →
        (env.nano a).genOk = true
        ∧ (nanoResolve (env.nano a)).1 ≠ BrollState.ok
        ∧ (nanoResolve (env.nano a)).1 ≠ BrollState.unknown) →
      (handle_broll_for_scene scene q env rep).ok = true
      ∧ (handle_broll_for_scene scene q env rep).acts = 3
      ∧ (∃ e, (handle_broll_for_scene scene q env rep).report.nano_banano_errors
            = rep.nano_banano_errors ++ [e]
          ∧ e.kind = none ∧ e.attempt = some 3
          ∧ e.reason.isSome = true ∧ e.screenshot.isSome = true)) := by
  constructor
  · intro scene q env rep hc hall
    have h := brollGo_exhaust scene q env.broll rep hall 3 1 []
      (by omega) (by omega) (by omega)
    simp only [handle_broll_for_scene, hc]
    obtain ⟨h1, h2, ⟨e, he, hk, hat, hr, hsc, _⟩, h4, _, h6, _⟩ := h
    exact ⟨h1, h2, ⟨e, he, hk, hat, hr, hsc⟩, h4, h6, by rw [h1]; rfl⟩
  · intro scene q p env rep hc hall
    have h := nanoGo_exhaust scene p env.nano rep hall 3 1 []
      (by omega) (by omega) (by omega)
    simp only [handle_broll_for_scene, hc]
    obtain ⟨h1, h2, ⟨e, he, hk, hat, hr, hsc, _, _⟩⟩ := h
    exact ⟨h1, h2, ⟨e, he, hk, hat, hr, hsc⟩⟩

/-- C7, witness for the amended theorem: a concrete B-roll run whose probe
reads `empty_canvas` on all three attempts performs exactly 3 attempts. -/
theorem c7_exhaustion_reporting_witness :
    (handle_broll_for_scene 1 "city at night"
        { broll := fun _ => { state1 := BrollState.empty_canvas, snap := some "b.png" } }
        {}).acts = 3 :=
  (c7_exhaustion_reporting_amended.1 1 "city at night"
      { broll := fun _ => { state1 := BrollState.empty_canvas, snap := some "b.png" } } {}
      (by decide) (fun _ _ _ => ⟨rfl, fun h => nomatch h⟩)).2.1

/-- C10.  Failures of the Nano-Banano generated-image path touch only the
`nano_banano_errors` report category (a generation failure appends exactly
its entry there), the enclosing b-roll call still returns success, the
generation-blocking predicate is invariant under the `nano_banano_errors`
category, and an unblocked report lets `generate` / `final_submit` invoke
the external action. -/
theorem c10_nano_failures_isolated :
    (∀ (scene : Int) (q p : String) (env : BrollEnv) (rep : Report),
      classifyBrollQuery q = QueryKind.nano p →
      (handle_broll_for_scene scene q env rep).ok = true
      ∧ (handle_broll_for_scene scene q env rep).report.validation_missing
          = rep.validation_missing
      ∧ (handle_broll_for_scene scene q env rep).report.broll_skipped
          = rep.broll_skipped
      ∧ (handle_broll_for_scene scene q env rep).report.broll_no_results
          = rep.broll_no_results
      ∧ (handle_broll_for_scene scene q env rep).report.broll_errors
          = rep.broll_errors
      ∧ (handle_broll_for_scene scene q env rep).report.manual_intervention
          = rep.manual_intervention
      ∧ ((env.nano 1).genOk = false →
          (handle_broll_for_scene scene q env rep).report.nano_banano_errors
            = rep.nano_banano_errors
              ++ [{ scene_idx := some scene, prompt := some p,
                    error := some (env.nano 1).genErr }]))
    ∧ (∀ (rep : Report) (steps : List StepStatus) (nanoList : List ReportEntry),
        should_block_generation { rep with nano_banano_errors := nanoList } steps
          = should_block_generation rep steps)
    ∧ (∀ (rep : Report) (steps : List StepStatus),
        should_block_generation rep steps = false →
        (executeGenerate true rep steps).actionInvoked = true
        ∧ (executeFinalSubmit true rep steps).actionInvoked = true) := by
  refine ⟨?_, ?_, ?_⟩
  · intro scene q p env rep hc
    simp only [handle_broll_for_scene, hc]
    have hrep := nanoGo_report_preserved scene p env.nano 3 1 [] rep
    refine ⟨nanoGo_ok scene p env.nano 3 1 [] rep, hrep.1, hrep.2.1, hrep.2.2.1,
      hrep.2.2.2.1, hrep.2.2.2.2, ?_⟩
    intro hg
    simp [nanoGo, hg]
  · intro rep steps nanoList
    rfl
  · intro rep steps hb
    constructor <;> simp [executeGenerate, executeFinalSubmit, hb]

/-- C10, witness: a generation failure leaves `broll_errors` untouched. -/
theorem c10_nano_failures_isolated_witness :
    (handle_broll_for_scene 2 "NANO_BANANO: x"
        { nano := fun _ => { genOk := false, genErr := "api down" } } {}).report.broll_errors
      = ({} : Report).broll_errors :=
  (c10_nano_failures_isolated.1 2 "NANO_BANANO: x" "x"
      { nano := fun _ => { genOk := false, genErr := "api down" } } {}
      (by decide)).2.2.2.2.1

end VideoAutomator
